import Mathlib

set_option autoImplicit false

namespace AdsPlugin

/-!
Shallow embedding of `ads_plugin.py` (a PyDM data plugin speaking the Beckhoff
ADS protocol through `pyads`).  Byte strings are `List Nat` with entries below
256; Python text is `List Char` at the working level and `String` at the API
boundary.  Fallible Python code (raising `ValueError`, `KeyError`, ...) is
embedded with `Except`.
-/

/-! ## Python built-in string operations used by the plugin -/

/-- Model of `str.partition(sep)`, reduced to the two pieces the source uses:
the text before the first occurrence of `sep`, and the text after it (empty
when `sep` does not occur, exactly as in Python). -/
def pyPartition (sep : Char) : List Char → List Char × List Char
  | [] => ([], [])
  | c :: rest =>
    if c = sep then ([], rest)
    else
      let p := pyPartition sep rest
      (c :: p.1, p.2)

/-- Model of `str.split(sep)` for a one-character separator: split on every
occurrence of `sep`; `''.split(sep) == ['']`. -/
def pySplit (sep : Char) : List Char → List (List Char)
  | [] => [[]]
  | c :: rest =>
    let r := pySplit sep rest
    if c = sep then [] :: r
    else
      match r with
      | h :: t => (c :: h) :: t
      | [] => [[c]]

/-- Model of `str.lstrip(ch)`: drop every leading occurrence of `ch`. -/
def pyLstrip (ch : Char) (l : List Char) : List Char :=
  l.dropWhile (fun c => c = ch)

/-- Model of `s[:-n]` for `n ≤ len(s)` (the source only uses `[:-4]` after an
`endswith('.1.1')` check). -/
def pyDropLast (n : Nat) (l : List Char) : List Char :=
  l.take (l.length - n)

/-- Model of `str.startswith(ch)` for a one-character argument. -/
def pyStartsWith (ch : Char) : List Char → Bool
  | [] => false
  | c :: _ => c = ch

/-- The digits value of a nonempty all-digit string, else `none`. -/
def decDigits? (l : List Char) : Option Nat :=
  if l ≠ [] ∧ l.all (fun c => c.isDigit) then
    some (l.foldl (fun acc c => acc * 10 + (c.toNat - 48)) 0)
  else none

/-- Model of Python `int(s)` for the plain forms a port string can take: an
optional sign followed by one or more ASCII digits.  (CPython additionally
accepts surrounding whitespace and digit-group underscores; nothing in the
claims uses those forms.) -/
def pyInt? : List Char → Option Int
  | '-' :: rest => (decDigits? rest).map (fun n => -(n : Int))
  | '+' :: rest => (decDigits? rest).map (fun n => (n : Int))
  | l => (decDigits? l).map (fun n => (n : Int))

/-- Unsigned plain decimal: at most one point, at least one digit, nothing but
digits and the point. -/
def isUnsignedDecimal (l : List Char) : Bool :=
  l.count '.' ≤ 1 && l.any (fun c => c.isDigit) &&
    l.all (fun c => c.isDigit || c = '.')

/-- Model of Python `float(s)` acceptance for the plain decimal poll-rate forms
(optional sign and a decimal literal; CPython additionally accepts exponents,
`inf`/`nan` and whitespace, which no claim exercises). -/
def isPyFloatToken : List Char → Bool
  | '-' :: rest => isUnsignedDecimal rest
  | '+' :: rest => isUnsignedDecimal rest
  | l => isUnsignedDecimal l

/-! ## `parse_address` (ads_plugin.py lines 66-102) -/

/-- The record returned by `parse_address` (lines 95-102).  `poll_rate` keeps
the validated poll-segment text (Python stores `float(poll_rate)`); `port`
holds the Python `int` value. -/
structure TargetAddress where
  ip_address : String
  host : String
  ams_id : String
  port : Int
  poll_rate : Option String
  symbol : String
  use_notify : Bool
deriving Repr, DecidableEq

/-- The failures `parse_address` can raise (all `ValueError` in CPython; the
spec calls them `AddressError`). -/
inductive AddressError where
  /-- `host, port = host_info.split(':')` with a part count other than 2. -/
  | unpackHostPort
  /-- `ams_id, ip_address = host.split('@')` with a part count other than 2. -/
  | unpackAmsIp
  /-- 6-octet host whose AMS id does not end in `.1.1` (line 83). -/
  | badAmsSuffix
  /-- Unrecognized host form (line 87). -/
  | badHost
  /-- `int(port)` failed (line 98). -/
  | badPort
  /-- `float(poll_rate)` failed (line 99). -/
  | badPollRate
deriving Repr, DecidableEq

/-- Lines 70-73: split `host_info` on `:`; an absent port is `none` here and
becomes 851 in `parsePort`. -/
def splitHostPort (host_info : List Char) :
    Except AddressError (List Char × Option (List Char)) :=
  if host_info.contains ':' then
    match pySplit ':' host_info with
    | [h, p] => .ok (h, some p)
    | _ => .error .unpackHostPort
  else .ok (host_info, none)

/-- Lines 75-87: resolve the host into `(ams_id, ip_address)`.  In the `@`
form both components are taken verbatim; a 4-octet host gets `.1.1` appended;
a 6-octet host must already end in `.1.1`. -/
def resolveHost (host : List Char) :
    Except AddressError (List Char × List Char) :=
  if host.contains '@' then
    match pySplit '@' host with
    | [ams_id, ip_address] => .ok (ams_id, ip_address)
    | _ => .error .unpackAmsIp
  else if host.count '.' = 3 then
    .ok (host ++ ".1.1".toList, host)
  else if host.count '.' = 5 then
    if (".1.1".toList).isSuffixOf host then
      .ok (host, pyDropLast 4 host)
    else .error .badAmsSuffix
  else .error .badHost

/-- Lines 89-93: peel an optional `@<rate>/` poll segment off the symbol. -/
def splitPoll (symbol : List Char) : Option (List Char) × List Char :=
  if pyStartsWith '@' symbol && symbol.contains '/' then
    let p := pyPartition '/' symbol
    (some (pyLstrip '@' p.1), p.2)
  else (none, symbol)

/-- Line 73 and line 98: the port is 851 when no `:` was present, otherwise
`int(port)`. -/
def parsePort : Option (List Char) → Except AddressError Int
  | none => .ok 851
  | some p =>
    match pyInt? p with
    | some v => .ok v
    | none => .error .badPort

/-- Line 99: `float(poll_rate)` when a poll segment is present. -/
def parsePollRate : Option (List Char) → Except AddressError (Option String) :=
  fun poll_info =>
    match poll_info with
    | none => .ok none
    | some pr =>
      if isPyFloatToken pr then .ok (some (String.mk pr))
      else .error .badPollRate

/-- `parse_address` (lines 66-102): grammar
`<host>[:<port>][/@poll_rate]/<symbol>`.  The first raising step wins, as in
Python. -/
def parse_address (addr : String) : Except AddressError TargetAddress :=
  match splitHostPort (pyPartition '/' addr.toList).1 with
  | .error e => .error e
  | .ok (host, portStr) =>
    match resolveHost host with
    | .error e => .error e
    | .ok (ams_id, ip_address) =>
      match parsePort portStr with
      | .error e => .error e
      | .ok port =>
        match parsePollRate (splitPoll (pyPartition '/' addr.toList).2).1 with
        | .error e => .error e
        | .ok poll_rate =>
          .ok { ip_address := String.mk ip_address, host := String.mk host,
                ams_id := String.mk ams_id, port := port,
                poll_rate := poll_rate,
                symbol := String.mk (splitPoll (pyPartition '/' addr.toList).2).2,
                use_notify := true }

/-! ## pyads `ctypes` data types (ads_plugin.py lines 26-63) -/

/-- The scalar `ctypes` classes behind the `pyads.constants.PLCTYPE_*`
constants the plugin uses.  Dicts key on the class objects, not on the
constant names, so the classes are what the model must distinguish: in
CPython `c_byte` IS `c_int8` and `c_ubyte` IS `c_uint8` (aliases of the same
class), hence one constructor for each distinct class. -/
inductive CScalar where
  | c_bool | c_int8 | c_uint8 | c_int16 | c_uint16
  | c_int32 | c_uint32 | c_int64 | c_uint64 | c_float | c_double
deriving Repr, DecidableEq

/-- A `ctypes` type as the plugin passes it around: a scalar class, the
string pseudo-type `PLCTYPE_STRING`, a `ctypes.Structure` subclass (reachable
through `custom_types`), or a `data_type * n` array type (line 191). -/
inductive PlcDataType where
  | prim (c : CScalar)
  | STRING
  | structT (name : String) (size : Nat)
  | arr (base : PlcDataType) (n : Nat)
deriving Repr, DecidableEq

/-- `ctypes.sizeof` of the types above.  `PLCTYPE_STRING` is never measured
by the plugin (the string branch of `get_symbol_data_type` runs first); the
pointer size stands in for it and no theorem quotes it. -/
def ctypesSizeof : PlcDataType → Nat
  | .prim .c_bool => 1
  | .prim .c_int8 => 1
  | .prim .c_uint8 => 1
  | .prim .c_int16 => 2
  | .prim .c_uint16 => 2
  | .prim .c_int32 => 4
  | .prim .c_uint32 => 4
  | .prim .c_int64 => 8
  | .prim .c_uint64 => 8
  | .prim .c_float => 4
  | .prim .c_double => 8
  | .STRING => 8
  | .structT _ size => size
  | .arr base n => ctypesSizeof base * n

/-- `pyads.constants.PLCTYPE_BOOL = ctypes.c_bool`. -/
def PLCTYPE_BOOL : PlcDataType := .prim .c_bool

/-- `pyads.constants.PLCTYPE_BYTE = ctypes.c_byte`, and `c_byte` is
`c_int8`. -/
def PLCTYPE_BYTE : PlcDataType := .prim .c_int8

/-- `pyads.constants.PLCTYPE_SINT = ctypes.c_int8`: the same class as
`PLCTYPE_BYTE`. -/
def PLCTYPE_SINT : PlcDataType := .prim .c_int8

/-- `pyads.constants.PLCTYPE_UBYTE = ctypes.c_ubyte`, and `c_ubyte` is
`c_uint8`. -/
def PLCTYPE_UBYTE : PlcDataType := .prim .c_uint8

/-- `pyads.constants.PLCTYPE_USINT = ctypes.c_uint8`: the same class as
`PLCTYPE_UBYTE`. -/
def PLCTYPE_USINT : PlcDataType := .prim .c_uint8

/-- `pyads.constants.PLCTYPE_INT = ctypes.c_int16`. -/
def PLCTYPE_INT : PlcDataType := .prim .c_int16

/-- `pyads.constants.PLCTYPE_UINT = ctypes.c_uint16`. -/
def PLCTYPE_UINT : PlcDataType := .prim .c_uint16

/-- `pyads.constants.PLCTYPE_WORD = ctypes.c_uint16`: the same class as
`PLCTYPE_UINT`. -/
def PLCTYPE_WORD : PlcDataType := .prim .c_uint16

/-- `pyads.constants.PLCTYPE_DINT = ctypes.c_int32`. -/
def PLCTYPE_DINT : PlcDataType := .prim .c_int32

/-- `pyads.constants.PLCTYPE_UDINT = ctypes.c_uint32`. -/
def PLCTYPE_UDINT : PlcDataType := .prim .c_uint32

/-- `pyads.constants.PLCTYPE_DWORD = ctypes.c_uint32`: the same class as
`PLCTYPE_UDINT`. -/
def PLCTYPE_DWORD : PlcDataType := .prim .c_uint32

/-- `pyads.constants.PLCTYPE_LINT = ctypes.c_int64`. -/
def PLCTYPE_LINT : PlcDataType := .prim .c_int64

/-- `pyads.constants.PLCTYPE_ULINT = ctypes.c_uint64`. -/
def PLCTYPE_ULINT : PlcDataType := .prim .c_uint64

/-- `pyads.constants.PLCTYPE_REAL = ctypes.c_float`. -/
def PLCTYPE_REAL : PlcDataType := .prim .c_float

/-- `pyads.constants.PLCTYPE_LREAL = ctypes.c_double`. -/
def PLCTYPE_LREAL : PlcDataType := .prim .c_double

/-- `pyads.constants.PLCTYPE_STRING`, the string pseudo-type. -/
def PLCTYPE_STRING : PlcDataType := .STRING

/-- `ads_type_to_ctype` (lines 46-63), keyed by the numeric `ADST_Type` ids
(`INT8 = 16`, `UINT8 = 17`, `INT16 = 2`, `UINT16 = 18`, `INT32 = 3`,
`UINT32 = 19`, `INT64 = 20`, `UINT64 = 21`, `REAL32 = 4`, `REAL64 = 5`,
`STRING = 30`, `BIT = 33`). -/
def ads_type_to_ctype : Nat → Option PlcDataType
  | 16 => some PLCTYPE_BYTE
  | 17 => some PLCTYPE_UBYTE
  | 2 => some PLCTYPE_INT
  | 18 => some PLCTYPE_UINT
  | 3 => some PLCTYPE_DINT
  | 19 => some PLCTYPE_UDINT
  | 20 => some PLCTYPE_LINT
  | 21 => some PLCTYPE_ULINT
  | 4 => some PLCTYPE_REAL
  | 5 => some PLCTYPE_LREAL
  | 30 => some PLCTYPE_STRING
  | 33 => some PLCTYPE_BOOL
  | _ => none

/-! ## `unpack_notification` (ads_plugin.py lines 115-153) -/

/-- The little-endian `struct` format strings appearing in the
`datatype_map` literal: `<?`, `<c`, `<i`, `<I`, `<h`, `<d`, `<f`, `<b`,
`<L`, `<H`, `<B`.  The `<c` and `<I` entries sit on duplicate dict keys and
are overwritten before the dict is ever consulted. -/
inductive StructFmt where
  | boolQ
  | charC
  | int32i
  | uint32I
  | int16h
  | float64d
  | float32f
  | int8b
  | uint32L
  | uint16H
  | uint8B
deriving Repr, DecidableEq

/-- `datatype_map` (lines 123-136) as the dict literal evaluates.  The dict
keys are the `ctypes` classes the `PLCTYPE_*` names denote, so the literal
holds duplicate keys and the later entry wins: `PLCTYPE_BYTE: "<c"` is
overwritten by `PLCTYPE_SINT: "<b"` (both are `c_int8`), and
`PLCTYPE_DWORD: "<I"` by `PLCTYPE_UDINT: "<L"` (both are `c_uint32`);
`PLCTYPE_USINT` supplies `"<B"` for `c_uint8` (the class `PLCTYPE_UBYTE`
also names), and `PLCTYPE_UINT`/`PLCTYPE_WORD` (both `c_uint16`) agree on
`"<H"`.  `c_int64` and `c_uint64` (`PLCTYPE_LINT`, `PLCTYPE_ULINT`) have no
entry at all. -/
def datatype_map : PlcDataType → Option StructFmt
  | .prim .c_bool => some .boolQ
  | .prim .c_int8 => some .int8b
  | .prim .c_uint8 => some .uint8B
  | .prim .c_int16 => some .int16h
  | .prim .c_uint16 => some .uint16H
  | .prim .c_int32 => some .int32i
  | .prim .c_uint32 => some .uint32L
  | .prim .c_float => some .float32f
  | .prim .c_double => some .float64d
  | _ => none

/-- A Python value as `unpack_notification` returns it.  A float is
identified by the IEEE-754 bit pattern read little-endian from the payload
(`struct.unpack` materializes exactly the float with that pattern). -/
inductive PyValue where
  | bool (b : Bool)
  | int (i : Int)
  /-- A one-byte `bytes` object, produced by format `<c`. -/
  | char (b : Nat)
  | float32 (bits : Nat)
  | float64 (bits : Nat)
  /-- Decoded text, as Unicode code points. -/
  | str (cps : List Nat)
  /-- The `bytearray(data)` fallback for unmapped types. -/
  | bytes (bs : List Nat)
  /-- The filled buffer of a `ctypes.Structure` instance. -/
  | structV (bs : List Nat)
deriving Repr, DecidableEq

/-- Little-endian value of a byte list. -/
def leDecode : List Nat → Nat
  | [] => 0
  | b :: rest => b + 256 * leDecode rest

/-- Little-endian layout of `n` on `w` bytes. -/
def encLE : Nat → Nat → List Nat
  | 0, _ => []
  | w + 1, n => n % 256 :: encLE w (n / 256)

/-- Two's-complement reading of a `bits`-wide unsigned value. -/
def toSigned (bits : Nat) (n : Nat) : Int :=
  if n < 2 ^ (bits - 1) then (n : Int) else (n : Int) - 2 ^ bits

/-- Two's-complement little-endian layout of an integer on `w` bytes. -/
def encSigned (w : Nat) (i : Int) : List Nat :=
  encLE w (i.emod (2 ^ (8 * w))).toNat

/-- The byte layout of a PLC boolean. -/
def encBool (b : Bool) : List Nat := [if b then 1 else 0]

/-- Byte width of a `struct` format. -/
def fmtSize : StructFmt → Nat
  | .boolQ | .charC | .int8b | .uint8B => 1
  | .int16h | .uint16H => 2
  | .int32i | .uint32I | .uint32L | .float32f => 4
  | .float64d => 8

/-- The decode failures `unpack_notification` can raise: `struct.error` when
the buffer length differs from the format size, `UnicodeDecodeError` from
`bytes.decode("utf-8")`. -/
inductive DecodeError where
  | structError
  | unicodeDecodeError
deriving Repr, DecidableEq

/-- `struct.unpack(fmt, bytearray(data))` (line 150): the buffer must have
exactly the format's size, and the value is read little-endian. -/
def structUnpack (fmt : StructFmt) (data : List Nat) :
    Except DecodeError PyValue :=
  if data.length = fmtSize fmt then
    .ok (match fmt with
      | .boolQ => .bool (leDecode data != 0)
      | .charC => .char (leDecode data)
      | .int8b => .int (toSigned 8 (leDecode data))
      | .uint8B => .int (leDecode data)
      | .int16h => .int (toSigned 16 (leDecode data))
      | .uint16H => .int (leDecode data)
      | .int32i => .int (toSigned 32 (leDecode data))
      | .uint32I => .int (leDecode data)
      | .uint32L => .int (leDecode data)
      | .float32f => .float32 (leDecode data)
      | .float64d => .float64 (leDecode data))
  else .error .structError

/-- Whether `b` is a UTF-8 continuation byte. -/
def utf8Cont (b : Nat) : Bool := 0x80 ≤ b && b < 0xC0

/-- Decode one UTF-8 character off the front of a byte list: the code point
and the remaining bytes.  Strict, as CPython's `decode("utf-8")`: stray
continuation bytes, overlong forms, surrogates and values above U+10FFFF are
rejected. -/
def utf8Step : List Nat → Option (Nat × List Nat)
  | [] => none
  | b :: rest =>
    if b < 0x80 then some (b, rest)
    else if b < 0xC2 then none
    else if b < 0xE0 then
      match rest with
      | c1 :: rest1 =>
        if utf8Cont c1 then some ((b - 0xC0) * 0x40 + (c1 - 0x80), rest1)
        else none
      | [] => none
    else if b < 0xF0 then
      match rest with
      | c1 :: c2 :: rest2 =>
        if utf8Cont c1 ∧ utf8Cont c2 ∧ (b = 0xE0 → 0xA0 ≤ c1) ∧
            (b = 0xED → c1 < 0xA0) then
          some ((b - 0xE0) * 0x1000 + (c1 - 0x80) * 0x40 + (c2 - 0x80), rest2)
        else none
      | _ => none
    else if b < 0xF5 then
      match rest with
      | c1 :: c2 :: c3 :: rest3 =>
        if utf8Cont c1 ∧ utf8Cont c2 ∧ utf8Cont c3 ∧ (b = 0xF0 → 0x90 ≤ c1) ∧
            (b = 0xF4 → c1 < 0x90) then
          some ((b - 0xF0) * 0x40000 + (c1 - 0x80) * 0x1000 +
            (c2 - 0x80) * 0x40 + (c3 - 0x80), rest3)
        else none
      | _ => none
    else none

/-- Character-by-character UTF-8 decoding; the fuel bounds the character
count and every character consumes at least one byte, so `utf8Decode?` passes
the byte count as fuel. -/
def utf8DecodeAux : Nat → List Nat → Option (List Nat)
  | _, [] => some []
  | 0, _ :: _ => none
  | fuel + 1, l =>
    match utf8Step l with
    | some (cp, rest) =>
      match utf8DecodeAux fuel rest with
      | some cps => some (cp :: cps)
      | none => none
    | none => none

/-- Strict UTF-8 decoding of a byte string into code points, `none` exactly
where CPython's `bytes.decode("utf-8")` raises. -/
def utf8Decode? (l : List Nat) : Option (List Nat) :=
  utf8DecodeAux l.length l

/-- `bytearray(data).split(b"\x00", 1)[0]` (line 140): the bytes before the
first null, or the whole buffer when no null occurs. -/
def takeUntilNull (l : List Nat) : List Nat :=
  l.takeWhile (fun b => b != 0)

/-- `unpack_notification` (lines 115-153), reduced to its value computation:
the transport hands over `cbSampleSize` payload bytes (`data`) and the
symbol's resolved `plc_datatype`; the timestamp field passes through the
external `pyads.filetimes.filetime_to_dt` unmodelled.  Branch order as in the
source: string, `ctypes.Structure` subclass, unmapped type, scalar format. -/
def unpack_notification (plc_datatype : PlcDataType) (data : List Nat) :
    Except DecodeError PyValue :=
  if plc_datatype = .STRING then
    match utf8Decode? (takeUntilNull data) with
    | some cps => .ok (.str cps)
    | none => .error .unicodeDecodeError
  else
    match plc_datatype with
    | .structT _ size =>
      .ok (.structV (data.take (min data.length size) ++
        List.replicate (size - min data.length size) 0))
    | dt =>
      match datatype_map dt with
      | none => .ok (.bytes data)
      | some fmt => structUnpack fmt data

/-! ## `get_symbol_data_type` (ads_plugin.py lines 156-193) -/

/-- The fields of the transport's `SAdsSymbolEntry` that
`get_symbol_data_type` reads (lines 158-159 and 180). -/
structure SAdsSymbolEntry where
  type_name : String
  dataType : Nat
  size : Nat
  comment : String
deriving Repr, DecidableEq

/-- The `custom_types` override dict.  A Python dict can key both numeric
type ids (ints) and type names (strs); an int key never equals a str key, so
the two key spaces are independent maps. -/
structure CustomTypes where
  byId : Nat → Option PlcDataType
  byName : String → Option PlcDataType

/-- The default `custom_types = {}` (lines 161-162). -/
def CustomTypes.empty : CustomTypes := ⟨fun _ => none, fun _ => none⟩

/-- The name-keyed view of `ads_type_to_ctype` behind the membership test at
line 172: the table's keys are all `ADST_Type` enum numbers, so a string is
never found among them and this lookup never matches. -/
def ads_type_to_ctype_name (_ : String) : Option PlcDataType := none

/-- The failures `get_symbol_data_type` can raise. -/
inductive ResolveError where
  /-- Line 177: unsupported data type, carrying the `type_name`, numeric id,
  reported size and comment that are formatted into the message. -/
  | unsupported (type_name : String) (number : Nat) (size : Nat)
      (comment : String)
  /-- `info.size // ctypes.sizeof(data_type)` with a zero-sized type raises
  `ZeroDivisionError` in Python (possible only for a field-less custom
  `Structure`). -/
  | zeroDivision
deriving Repr, DecidableEq

/-- Lines 161-181: the four-stage lookup of the decoding type; the first
match wins. -/
def lookupDataType (custom_types : CustomTypes) (info : SAdsSymbolEntry) :
    Except ResolveError PlcDataType :=
  match custom_types.byId info.dataType with
  | some t => .ok t
  | none =>
    match custom_types.byName info.type_name with
    | some t => .ok t
    | none =>
      match ads_type_to_ctype info.dataType with
      | some t => .ok t
      | none =>
        match ads_type_to_ctype_name info.type_name with
        | some t => .ok t
        | none =>
          .error (.unsupported info.type_name info.dataType info.size
            info.comment)

/-- Lines 183-191: a string type stays scalar with `array_length = 1`; any
other type divides the reported size by the element size (remainder silently
dropped) and is promoted to the array type `data_type * array_length` when
more than one element fits. -/
def promoteArray (data_type : PlcDataType) (size : Nat) :
    Except ResolveError (PlcDataType × Nat) :=
  if data_type = .STRING then .ok (data_type, 1)
  else if ctypesSizeof data_type = 0 then .error .zeroDivision
  else if size / ctypesSizeof data_type > 1 then
    .ok (.arr data_type (size / ctypesSizeof data_type),
      size / ctypesSizeof data_type)
  else .ok (data_type, size / ctypesSizeof data_type)

/-- `get_symbol_data_type` (lines 156-193) minus the metadata round-trip: the
caller passes the `SAdsSymbolEntry` the transport produced for the symbol. -/
def get_symbol_data_type (custom_types : CustomTypes)
    (info : SAdsSymbolEntry) : Except ResolveError (PlcDataType × Nat) :=
  match lookupDataType custom_types info with
  | .error e => .error e
  | .ok data_type => promoteArray data_type info.size

/-- A sample override table keying the numeric id 99. -/
def sampleCustomById : CustomTypes :=
  ⟨fun n => if n = 99 then some (.structT "S" 4) else none, fun _ => none⟩

/-- A sample override table keying the type name `FOO`. -/
def sampleCustomByName : CustomTypes :=
  ⟨fun _ => none, fun s => if s = "FOO" then some (.prim .c_float) else none⟩

/-! ## `Symbol` (ads_plugin.py lines 224-271) -/

/-- Python exception kinds raised by the runtime pieces modelled below. -/
inductive PyError where
  /-- `TypeError`: `ctypes.sizeof(None)`, or unpacking a non-tuple. -/
  | typeError
  /-- `KeyError`: `dict.pop` with a missing key. -/
  | keyError
  /-- `ValueError`: `list.remove` with an absent element. -/
  | valueError
deriving Repr, DecidableEq

/-- A poll rate used as a registry key.  Python keys by the `float` value;
equal floats correspond to equal canonical tokens, and no claim computes with
the rate, so the token stands in for the number. -/
abbrev PollRate := String

/-- The mutable state of a `Symbol` (lines 225-235): the resolved data type
and array size start as `None`, and `self.data` starts disconnected. -/
structure SymbolState where
  symbol : String
  poll_rate : Option PollRate
  data_type : Option PlcDataType
  array_size : Option Nat
  notification_handle : Option Nat
  connected : Bool
deriving Repr, DecidableEq

/-- `Symbol.__init__` (lines 225-235). -/
def Symbol.mkState (symbol : String) (poll_rate : Option PollRate) :
    SymbolState :=
  { symbol := symbol, poll_rate := poll_rate, data_type := none,
    array_size := none, notification_handle := none, connected := false }

/-- Transport calls a symbol initializer or poll performs, in order. -/
inductive DeviceAction where
  /-- `add_device_notification(symbol, attr, _notification_update)`, with the
  `NotificationAttrib` payload size. -/
  | addDeviceNotification (symbol : String) (size : Nat)
  /-- `read_by_name(symbol, plc_datatype)` followed by `send_to_channel`. -/
  | readByName (symbol : String)
deriving Repr, DecidableEq

/-- Failures escaping a symbol initializer or poll call (caught and logged by
the device worker loop). -/
inductive InitError where
  /-- `ctypes.sizeof(self.data_type)` while `data_type` is still `None`
  raises `TypeError` (line 262). -/
  | sizeofNone
  /-- `get_symbol_data_type` raised inside `_update_data_type`. -/
  | resolveFailed (e : ResolveError)
deriving Repr, DecidableEq

/-- `Symbol._update_data_type` (lines 248-251): resolve against the
device-reported metadata (`resolve` plays the transport's part) and mark the
channel connected. -/
def Symbol.updateDataType
    (resolve : String → Except ResolveError (PlcDataType × Nat))
    (s : SymbolState) : Except InitError SymbolState :=
  match resolve s.symbol with
  | .ok (dt, n) =>
    .ok { s with data_type := some dt, array_size := some n,
                 connected := true }
  | .error e => .error (.resolveFailed e)

/-- `Symbol.poll` (lines 253-257): resolve the type on first use, then read
and publish. -/
def Symbol.pollOnce
    (resolve : String → Except ResolveError (PlcDataType × Nat))
    (s : SymbolState) : Except InitError (SymbolState × List DeviceAction) :=
  match (if s.data_type = none then Symbol.updateDataType resolve s
         else .ok s) with
  | .error e => .error e
  | .ok s1 => .ok (s1, [.readByName s.symbol])

/-- The initializer `init` that `set_connection` (lines 259-266) enqueues on
the device worker.  Push mode (no poll rate): size a notification from
`ctypes.sizeof(self.data_type)` and subscribe `_notification_update` — note
that nothing on this path resolves `data_type` first.  Poll mode: one
immediate synchronous poll. -/
def Symbol.connectionInit
    (resolve : String → Except ResolveError (PlcDataType × Nat))
    (s : SymbolState) : Except InitError (SymbolState × List DeviceAction) :=
  match s.poll_rate with
  | none =>
    match s.data_type with
    | none => .error .sizeofNone
    | some dt =>
      .ok ({ s with notification_handle := some 0 },
        [.addDeviceNotification s.symbol (ctypesSizeof dt)])
  | some _ => Symbol.pollOnce resolve s

/-! ## `Plc._poll_thread` (ads_plugin.py lines 303-319) -/

/-- A Python object held in a poll group's `calls` list or passed to
`list.remove`: either a registered `(func, args, kwargs)` tuple or a bare
function object.  Functions are identified by an id, and `raises` says
whether calling the function raises. -/
inductive PyObj where
  | tuple (fid : Nat) (raises : Bool)
  | func (fid : Nat)
deriving Repr, DecidableEq

/-- Python `==` on these objects: tuples compare componentwise, functions
compare by identity, and a tuple never equals a function. -/
def pyObjEq : PyObj → PyObj → Bool
  | .tuple f r, .tuple g s => f = g && r = s
  | .func f, .func g => f = g
  | _, _ => false

/-- Python `list.remove(x)`: drop the first element equal to `x`; raise
`ValueError` when no element is. -/
def pyListRemove (l : List PyObj) (x : PyObj) : Except PyError (List PyObj) :=
  match l with
  | [] => .error .valueError
  | a :: rest =>
    if pyObjEq a x then .ok rest
    else
      match pyListRemove rest x with
      | .ok rest' => .ok (a :: rest')
      | .error e => .error e

/-- The `for func, args, kwargs in list(info['calls'])` loop of one
`_poll_thread` cycle (lines 307-317), walking the snapshot while carrying the
live list and the ids of the callbacks invoked so far.  A raising callback is
logged and then `info['calls'].remove(func)` runs inside the handler; an
exception from `remove` itself is uncaught, so it aborts the loop (and kills
the poll thread).  Iterating over a non-tuple entry would raise `TypeError`
at the unpacking (unreachable: `add_to_poll_thread` appends only tuples). -/
def pollCycleAux : List PyObj → List PyObj → List Nat →
    Except PyError (List PyObj) × List Nat
  | [], live, ran => (.ok live, ran)
  | .func _ :: _, _, ran => (.error .typeError, ran)
  | .tuple fid r :: rest, live, ran =>
    if r then
      match pyListRemove live (.func fid) with
      | .ok live' => pollCycleAux rest live' (ran ++ [fid])
      | .error e => (.error e, ran ++ [fid])
    else pollCycleAux rest live (ran ++ [fid])

/-- One full cycle of `Plc._poll_thread`'s while body over a poll group's
calls: the snapshot `list(info['calls'])` and the live list start equal.
Returns the surviving live list (or the uncaught exception) and the invoked
callback ids. -/
def pollCycle (calls : List PyObj) : Except PyError (List PyObj) × List Nat :=
  pollCycleAux calls calls []

/-! ## `Plc` symbol registry (ads_plugin.py lines 274-345, 387-390) -/

/-- A key of the `Plc.symbols` dict: `get_symbol` stores under the tuple
`(symbol_name, poll_rate)` (line 338) while `Connection.close` pops the bare
name string (line 389); a str never equals a tuple. -/
inductive PyKey where
  | str (s : String)
  | pair (name : String) (rate : Option PollRate)
deriving Repr, DecidableEq

/-- A `Symbol` instance, identified by its allocation index in the `Plc`. -/
abbrev SymbolId := Nat

/-- The `Plc` state the registry claims touch: the insertion-ordered
`symbols` dict, whether `self.ads` is open, and the allocator giving fresh
`Symbol` identities. -/
structure PlcState where
  symbols : List (PyKey × SymbolId)
  adsOpen : Bool
  nextId : SymbolId
deriving Repr, DecidableEq

/-- `Plc.__init__` (lines 275-285): empty symbol dict, transport not yet
open. -/
def Plc.initState : PlcState :=
  { symbols := [], adsOpen := false, nextId := 0 }

/-- Python `dict[k]` lookup on an insertion-ordered association list. -/
def dictGet? (d : List (PyKey × SymbolId)) (k : PyKey) : Option SymbolId :=
  match d with
  | [] => none
  | (k', v) :: rest => if k' = k then some v else dictGet? rest k

/-- Python `dict.pop(k)`: the value and the remaining dict, or `KeyError`. -/
def dictPop (d : List (PyKey × SymbolId)) (k : PyKey) :
    Except PyError (SymbolId × List (PyKey × SymbolId)) :=
  match d with
  | [] => .error .keyError
  | (k', v) :: rest =>
    if k' = k then .ok (v, rest)
    else
      match dictPop rest k with
      | .ok (x, rest') => .ok (x, (k', v) :: rest')
      | .error e => .error e

/-- `Plc.get_symbol` (lines 337-345): return the cached symbol for the
`(symbol_name, poll_rate)` key; on a miss, open the transport if needed and
register a fresh `Symbol` under that key. -/
def Plc.get_symbol (st : PlcState) (symbol_name : String)
    (poll_rate : Option PollRate) : SymbolId × PlcState :=
  match dictGet? st.symbols (.pair symbol_name poll_rate) with
  | some sym => (sym, st)
  | none =>
    (st.nextId,
      { symbols := st.symbols ++ [(.pair symbol_name poll_rate, st.nextId)],
        adsOpen := true,
        nextId := st.nextId + 1 })

/-- `Plc.clear_symbol` (lines 332-335): pop the given key; when the dict
becomes empty, close the transport. -/
def Plc.clear_symbol (st : PlcState) (symbol : PyKey) :
    Except PyError PlcState :=
  match dictPop st.symbols symbol with
  | .error e => .error e
  | .ok (_, symbols') =>
    .ok { st with symbols := symbols',
                  adsOpen := if symbols'.isEmpty then false else st.adsOpen }

/-- `Connection.close` (lines 387-390): release the connection's symbol by
passing the bare `symbol_name` string to `clear_symbol`. -/
def Connection.close (st : PlcState) (symbol_name : String) :
    Except PyError PlcState :=
  Plc.clear_symbol st (.str symbol_name)

end AdsPlugin

namespace AdsPlugin

/-! ## Theorems: address parsing -/

theorem splitHostPort_no_colon {host_info : List Char}
    (hc : host_info.contains ':' = false) :
    splitHostPort host_info = .ok (host_info, none) := by
  unfold splitHostPort
  rw [if_neg (by rw [hc]; exact Bool.false_ne_true)]

/-- C7: `parse_address` maps a 4-dotted-octet host to
`device_id = ip ++ ".1.1"`; maps a 6-dotted-octet host ending in `.1.1` to
`ip =` the host minus the trailing `.1.1`; fails with an address error for any
6-octet host not ending in `.1.1`; and when the port is omitted it defaults
to 851. -/
theorem parse_address_host_forms :
    (∀ host : List Char, host.contains '@' = false → host.count '.' = 3 →
      resolveHost host = .ok (host ++ ".1.1".toList, host)) ∧
    (∀ host : List Char, host.contains '@' = false → host.count '.' = 5 →
      (".1.1".toList).isSuffixOf host = true →
      resolveHost host = .ok (host, pyDropLast 4 host)) ∧
    (∀ host : List Char, host.contains '@' = false → host.count '.' = 5 →
      (".1.1".toList).isSuffixOf host = false →
      resolveHost host = .error .badAmsSuffix) ∧
    (∀ (addr : String) (ta : TargetAddress), parse_address addr = .ok ta →
      ((pyPartition '/' addr.toList).1).contains ':' = false →
      ta.port = 851) := by
  refine ⟨?_, ?_, ?_, ?_⟩
  · intro host h1 h2
    unfold resolveHost
    rw [if_neg (by rw [h1]; exact Bool.false_ne_true), if_pos h2]
  · intro host h1 h2 h3
    unfold resolveHost
    rw [if_neg (by rw [h1]; exact Bool.false_ne_true),
      if_neg (by omega), if_pos h2, if_pos h3]
  · intro host h1 h2 h3
    unfold resolveHost
    rw [if_neg (by rw [h1]; exact Bool.false_ne_true),
      if_neg (by omega), if_pos h2,
      if_neg (by rw [h3]; exact Bool.false_ne_true)]
  · intro addr ta hok hc
    unfold parse_address at hok
    split at hok
    · exact Except.noConfusion hok
    · rename_i host portStr heq
      rw [splitHostPort_no_colon hc] at heq
      cases heq
      split at hok
      · exact Except.noConfusion hok
      · split at hok
        · rename_i e heq3
          rw [show parsePort none = Except.ok 851 from rfl] at heq3
          exact Except.noConfusion heq3
        · rename_i port heq3
          rw [show parsePort none = Except.ok 851 from rfl] at heq3
          cases heq3
          split at hok
          · exact Except.noConfusion hok
          · cases hok
            rfl

/-- Witness for `parse_address_host_forms` at concrete inputs. -/
theorem parse_address_host_forms_witness :
    resolveHost "10.0.0.5".toList =
      .ok ("10.0.0.5".toList ++ ".1.1".toList, "10.0.0.5".toList) ∧
    resolveHost "5.6.7.8.1.1".toList =
      .ok ("5.6.7.8.1.1".toList, pyDropLast 4 "5.6.7.8.1.1".toList) ∧
    resolveHost "5.6.7.8.1.2".toList = .error .badAmsSuffix ∧
    ({ ip_address := "10.0.0.5", host := "10.0.0.5", ams_id := "10.0.0.5.1.1",
       port := 851, poll_rate := none, symbol := "MAIN.flag",
       use_notify := true : TargetAddress }).port = 851 := by
  refine ⟨?_, ?_, ?_, ?_⟩
  · exact parse_address_host_forms.1 "10.0.0.5".toList (by decide) (by decide)
  · exact parse_address_host_forms.2.1 "5.6.7.8.1.1".toList (by decide)
      (by decide) (by decide)
  · exact parse_address_host_forms.2.2.1 "5.6.7.8.1.2".toList (by decide)
      (by decide) (by decide)
  · exact parse_address_host_forms.2.2.2 "10.0.0.5/MAIN.flag"
      { ip_address := "10.0.0.5", host := "10.0.0.5", ams_id := "10.0.0.5.1.1",
        port := 851, poll_rate := none, symbol := "MAIN.flag",
        use_notify := true }
      (by rfl) (by decide)

/-- C6 (amended): every `@`-free host accepted by the host-resolution step of
`parse_address` yields an `ams_id` ending in `.1.1`; in the `net_id@ip` form
the AMS id is taken verbatim and need not end in `.1.1`. -/
theorem ams_id_suffix_of_no_at :
    ∀ host ams_id ip_address : List Char, host.contains '@' = false →
      resolveHost host = .ok (ams_id, ip_address) →
      (".1.1".toList).isSuffixOf ams_id = true := by
  intro host ams_id ip_address h1 h2
  unfold resolveHost at h2
  rw [if_neg (by rw [h1]; exact Bool.false_ne_true)] at h2
  by_cases h3 : host.count '.' = 3
  · rw [if_pos h3] at h2
    cases h2
    simp [List.isSuffixOf_iff_suffix]
  · rw [if_neg h3] at h2
    by_cases h5 : host.count '.' = 5
    · rw [if_pos h5] at h2
      by_cases hs : (".1.1".toList).isSuffixOf host = true
      · rw [if_pos hs] at h2
        cases h2
        exact hs
      · rw [if_neg hs] at h2
        exact Except.noConfusion h2
    · rw [if_neg h5] at h2
      exact Except.noConfusion h2

/-- Witness for `ams_id_suffix_of_no_at` at a concrete host. -/
theorem ams_id_suffix_of_no_at_witness :
    (".1.1".toList).isSuffixOf ("10.0.0.5".toList ++ ".1.1".toList) = true :=
  ams_id_suffix_of_no_at "10.0.0.5".toList
    ("10.0.0.5".toList ++ ".1.1".toList) "10.0.0.5".toList
    (by decide) (by rfl)

/-! ## Theorems: notification decoding -/

theorem length_encLE (w n : Nat) : (encLE w n).length = w := by
  induction w generalizing n with
  | zero => rfl
  | succ w ih => simp [encLE, ih]

theorem leDecode_encLE (w n : Nat) (h : n < 2 ^ (8 * w)) :
    leDecode (encLE w n) = n := by
  induction w generalizing n with
  | zero =>
    interval_cases n
    rfl
  | succ w ih =>
    have hdiv : n / 256 < 2 ^ (8 * w) := by
      rw [Nat.div_lt_iff_lt_mul (by norm_num)]
      calc n < 2 ^ (8 * (w + 1)) := h
      _ = 2 ^ (8 * w) * 256 := by rw [Nat.mul_succ, pow_add]; norm_num
    rw [encLE, leDecode, ih _ hdiv, Nat.mod_add_div]

theorem toSigned_encSigned (w : Nat) (hw : 0 < w) (i : Int)
    (h1 : -(2 ^ (8 * w - 1)) ≤ i) (h2 : i < 2 ^ (8 * w - 1)) :
    toSigned (8 * w) (leDecode (encSigned w i)) = i := by
  have hH : (0 : Int) < 2 ^ (8 * w - 1) := by positivity
  have hM : (0 : Int) < 2 ^ (8 * w) := by positivity
  have hMH : (2 : Int) ^ (8 * w) = 2 * 2 ^ (8 * w - 1) := by
    rw [← pow_succ']
    congr 1
    omega
  have hge : 0 ≤ i.emod (2 ^ (8 * w)) := Int.emod_nonneg i (ne_of_gt hM)
  have hlt : i.emod (2 ^ (8 * w)) < 2 ^ (8 * w) := Int.emod_lt_of_pos i hM
  have hnat : (((i.emod (2 ^ (8 * w))).toNat : Nat) : Int) =
      i.emod (2 ^ (8 * w)) := Int.toNat_of_nonneg hge
  have hsize : (i.emod (2 ^ (8 * w))).toNat < 2 ^ (8 * w) := by
    have hends : ((i.emod (2 ^ (8 * w))).toNat : Int) <
        (((2 : Nat) ^ (8 * w) : Nat) : Int) := by
      rw [hnat]
      push_cast
      exact hlt
    exact_mod_cast hends
  have hcase : i.emod (2 ^ (8 * w)) = i ∨
      i.emod (2 ^ (8 * w)) = i + 2 ^ (8 * w) := by
    rcases le_or_lt 0 i with hpos | hneg
    · left
      exact Int.emod_eq_of_lt hpos (by linarith)
    · right
      have h0 : 0 ≤ i + 2 ^ (8 * w) := by linarith
      have h1' : i + 2 ^ (8 * w) < 2 ^ (8 * w) := by linarith
      have hshift : (i + 2 ^ (8 * w)) % (2 ^ (8 * w)) = i % (2 ^ (8 * w)) :=
        Int.add_emod_self
      have h2' : (i + 2 ^ (8 * w)) % (2 ^ (8 * w)) = i + 2 ^ (8 * w) :=
        Int.emod_eq_of_lt h0 h1'
      show i % (2 ^ (8 * w)) = i + 2 ^ (8 * w)
      rw [← hshift]
      exact h2'
  rw [encSigned, leDecode_encLE _ _ hsize, toSigned]
  by_cases hsplit : (i.emod (2 ^ (8 * w))).toNat < 2 ^ (8 * w - 1)
  · rw [if_pos hsplit]
    rcases hcase with hc | hc
    · rw [hnat, hc]
    · exfalso
      have hm_lt : ((i.emod (2 ^ (8 * w))).toNat : Int) < 2 ^ (8 * w - 1) := by
        exact_mod_cast hsplit
      rw [hnat, hc] at hm_lt
      linarith
  · rw [if_neg hsplit]
    rcases hcase with hc | hc
    · exfalso
      have hm_ge : (2 : Int) ^ (8 * w - 1) ≤
          ((i.emod (2 ^ (8 * w))).toNat : Int) := by
        exact_mod_cast Nat.le_of_not_lt hsplit
      rw [hnat, hc] at hm_ge
      linarith
    · rw [hnat, hc]
      ring

/-- C1 (amended): the notification round-trip holds for bool, the 1-, 2- and
4-byte signed and unsigned integers and the 4/8-byte floats; it fails
exactly for the 8-byte integers: `c_int64` and `c_uint64` (`PLCTYPE_LINT`/
`PLCTYPE_ULINT`, reached from `ADST_INT64`/`ADST_UINT64`) have no entry in
the evaluated `datatype_map`, so their payloads come back as the raw
`bytearray` instead of the original value. -/
theorem unpack_roundtrip_amended :
    (∀ b : Bool,
      unpack_notification (.prim .c_bool) (encBool b) = .ok (.bool b)) ∧
    (∀ n : Nat, n < 256 →
      unpack_notification (.prim .c_uint8) (encLE 1 n) = .ok (.int n)) ∧
    (∀ i : Int, -128 ≤ i → i < 128 →
      unpack_notification (.prim .c_int8) (encSigned 1 i) = .ok (.int i)) ∧
    (∀ n : Nat, n < 65536 →
      unpack_notification (.prim .c_uint16) (encLE 2 n) = .ok (.int n)) ∧
    (∀ i : Int, -32768 ≤ i → i < 32768 →
      unpack_notification (.prim .c_int16) (encSigned 2 i) = .ok (.int i)) ∧
    (∀ n : Nat, n < 4294967296 →
      unpack_notification (.prim .c_uint32) (encLE 4 n) = .ok (.int n)) ∧
    (∀ i : Int, -2147483648 ≤ i → i < 2147483648 →
      unpack_notification (.prim .c_int32) (encSigned 4 i) = .ok (.int i)) ∧
    (∀ bits : Nat, bits < 4294967296 →
      unpack_notification (.prim .c_float) (encLE 4 bits) =
        .ok (.float32 bits)) ∧
    (∀ bits : Nat, bits < 18446744073709551616 →
      unpack_notification (.prim .c_double) (encLE 8 bits) =
        .ok (.float64 bits)) ∧
    (∀ bs : List Nat, bs.length = 8 →
      unpack_notification (.prim .c_int64) bs = .ok (.bytes bs) ∧
      unpack_notification (.prim .c_uint64) bs = .ok (.bytes bs)) := by
  refine ⟨?_, ?_, ?_, ?_, ?_, ?_, ?_, ?_, ?_, ?_⟩
  · intro b
    cases b <;> rfl
  · intro n hn
    simp [unpack_notification, datatype_map, structUnpack, fmtSize,
      length_encLE, leDecode_encLE 1 n (by norm_num; omega)]
  · intro i hi1 hi2
    have hts := toSigned_encSigned 1 (by norm_num) i (by norm_num; omega)
      (by norm_num; omega)
    simp [unpack_notification, datatype_map, structUnpack, fmtSize,
      length_encLE, encSigned] at hts ⊢
    rw [hts]
  · intro n hn
    simp [unpack_notification, datatype_map, structUnpack, fmtSize,
      length_encLE, leDecode_encLE 2 n (by norm_num; omega)]
  · intro i hi1 hi2
    have hts := toSigned_encSigned 2 (by norm_num) i (by norm_num; omega)
      (by norm_num; omega)
    simp [unpack_notification, datatype_map, structUnpack, fmtSize,
      length_encLE, encSigned] at hts ⊢
    rw [hts]
  · intro n hn
    simp [unpack_notification, datatype_map, structUnpack, fmtSize,
      length_encLE, leDecode_encLE 4 n (by norm_num; omega)]
  · intro i hi1 hi2
    have hts := toSigned_encSigned 4 (by norm_num) i (by norm_num; omega)
      (by norm_num; omega)
    simp [unpack_notification, datatype_map, structUnpack, fmtSize,
      length_encLE, encSigned] at hts ⊢
    rw [hts]
  · intro bits hb
    simp [unpack_notification, datatype_map, structUnpack, fmtSize,
      length_encLE, leDecode_encLE 4 bits (by norm_num; omega)]
  · intro bits hb
    simp [unpack_notification, datatype_map, structUnpack, fmtSize,
      length_encLE, leDecode_encLE 8 bits (by norm_num; omega)]
  · intro bs hlen
    constructor <;> rfl

/-- Witness for `unpack_roundtrip_amended` at concrete values. -/
theorem unpack_roundtrip_amended_witness :
    unpack_notification (.prim .c_bool) (encBool true) = .ok (.bool true) ∧
    unpack_notification (.prim .c_uint8) (encLE 1 200) = .ok (.int 200) ∧
    unpack_notification (.prim .c_int8) (encSigned 1 (-5)) = .ok (.int (-5)) ∧
    unpack_notification (.prim .c_uint16) (encLE 2 7) = .ok (.int 7) ∧
    unpack_notification (.prim .c_int16) (encSigned 2 (-5)) = .ok (.int (-5)) ∧
    unpack_notification (.prim .c_uint32) (encLE 4 70000) = .ok (.int 70000) ∧
    unpack_notification (.prim .c_int32) (encSigned 4 (-70000)) =
      .ok (.int (-70000)) ∧
    unpack_notification (.prim .c_float) (encLE 4 1065353216) =
      .ok (.float32 1065353216) ∧
    unpack_notification (.prim .c_double) (encLE 8 4607182418800017408) =
      .ok (.float64 4607182418800017408) ∧
    (unpack_notification (.prim .c_int64) (encLE 8 1) =
      .ok (.bytes (encLE 8 1)) ∧
     unpack_notification (.prim .c_uint64) (encLE 8 1) =
      .ok (.bytes (encLE 8 1))) :=
  ⟨unpack_roundtrip_amended.1 true,
   unpack_roundtrip_amended.2.1 200 (by norm_num),
   unpack_roundtrip_amended.2.2.1 (-5) (by norm_num) (by norm_num),
   unpack_roundtrip_amended.2.2.2.1 7 (by norm_num),
   unpack_roundtrip_amended.2.2.2.2.1 (-5) (by norm_num) (by norm_num),
   unpack_roundtrip_amended.2.2.2.2.2.1 70000 (by norm_num),
   unpack_roundtrip_amended.2.2.2.2.2.2.1 (-70000) (by norm_num)
     (by norm_num),
   unpack_roundtrip_amended.2.2.2.2.2.2.2.1 1065353216 (by norm_num),
   unpack_roundtrip_amended.2.2.2.2.2.2.2.2.1 4607182418800017408
     (by norm_num),
   unpack_roundtrip_amended.2.2.2.2.2.2.2.2.2 (encLE 8 1)
     (length_encLE 8 1)⟩

/-- C1 counterexample: a `UINT64` payload (the little-endian bytes of 1)
does not decode back to the value 1 — `PLCTYPE_ULINT` has no `datatype_map`
entry, so `unpack_notification` returns the raw `bytearray`. -/
theorem unpack_uint64_not_roundtrip :
    unpack_notification (.prim .c_uint64) (encLE 8 1) =
      .ok (.bytes [1, 0, 0, 0, 0, 0, 0, 0]) ∧
    PyValue.bytes [1, 0, 0, 0, 0, 0, 0, 0] ≠ PyValue.int 1 := by
  constructor
  · rfl
  · decide

theorem takeUntilNull_of_no_null (l : List Nat) (h : 0 ∉ l) :
    takeUntilNull l = l := by
  induction l with
  | nil => rfl
  | cons b rest ih =>
    simp only [List.mem_cons, not_or] at h
    obtain ⟨hb, hrest⟩ := h
    have hb' : (b != 0) = true := by
      simp only [bne_iff_ne, ne_eq]
      exact fun hh => hb hh.symm
    simp [takeUntilNull, hb'] at ih ⊢
    exact ih hrest

/-- C10 (amended): a string-typed payload with no null byte and valid UTF-8
content decodes in full — the split on the null terminator falls back to the
whole buffer, which is then decoded as UTF-8 text.  (A null-free payload that
is not valid UTF-8 makes `bytes.decode("utf-8")` raise, see the
counterexample.) -/
theorem string_decode_no_null :
    ∀ data cps : List Nat, 0 ∉ data → utf8Decode? data = some cps →
      unpack_notification .STRING data = .ok (.str cps) := by
  intro data cps h hdec
  unfold unpack_notification
  rw [if_pos rfl, takeUntilNull_of_no_null data h, hdec]

/-- Witness for `string_decode_no_null` on the payload `b"Hi"`. -/
theorem string_decode_no_null_witness :
    unpack_notification .STRING [72, 105] = .ok (.str [72, 105]) :=
  string_decode_no_null [72, 105] [72, 105] (by decide) (by rfl)

/-- C10 counterexample: the null-free payload `[0xFF]` is not valid UTF-8,
so the string decode raises instead of returning text. -/
theorem string_decode_invalid_utf8 :
    unpack_notification .STRING [255] = .error .unicodeDecodeError ∧
    0 ∉ [(255 : Nat)] := by
  constructor
  · rfl
  · decide

/-! ## Theorems: type resolution -/

/-- C8: type resolution looks up, in order, the numeric type id in
`custom_types`, the type name in `custom_types`, the numeric id in the
built-in table, the type name in the built-in table (vacuous as shipped: that
table has only numeric keys); the first match determines the type, and if
none match it fails with an unsupported-type error carrying the type name,
numeric id, byte size and comment. -/
theorem lookup_order_first_match :
    (∀ (ct : CustomTypes) (info : SAdsSymbolEntry) (t : PlcDataType),
      ct.byId info.dataType = some t → lookupDataType ct info = .ok t) ∧
    (∀ (ct : CustomTypes) (info : SAdsSymbolEntry) (t : PlcDataType),
      ct.byId info.dataType = none → ct.byName info.type_name = some t →
      lookupDataType ct info = .ok t) ∧
    (∀ (ct : CustomTypes) (info : SAdsSymbolEntry) (t : PlcDataType),
      ct.byId info.dataType = none → ct.byName info.type_name = none →
      ads_type_to_ctype info.dataType = some t →
      lookupDataType ct info = .ok t) ∧
    (∀ (ct : CustomTypes) (info : SAdsSymbolEntry),
      ct.byId info.dataType = none → ct.byName info.type_name = none →
      ads_type_to_ctype info.dataType = none →
      lookupDataType ct info =
        .error (.unsupported info.type_name info.dataType info.size
          info.comment)) := by
  refine ⟨?_, ?_, ?_, ?_⟩
  · intro ct info t h1
    simp [lookupDataType, h1]
  · intro ct info t h1 h2
    simp [lookupDataType, h1, h2]
  · intro ct info t h1 h2 h3
    simp [lookupDataType, h1, h2, h3]
  · intro ct info h1 h2 h3
    simp [lookupDataType, h1, h2, h3, ads_type_to_ctype_name]

/-- Witness for `lookup_order_first_match` on concrete tables and entries. -/
theorem lookup_order_first_match_witness :
    lookupDataType sampleCustomById ⟨"FOO", 99, 4, ""⟩ =
      .ok (.structT "S" 4) ∧
    lookupDataType sampleCustomByName ⟨"FOO", 99, 4, ""⟩ =
      .ok (.prim .c_float) ∧
    lookupDataType CustomTypes.empty ⟨"UDINT", 19, 4, ""⟩ =
      .ok (.prim .c_uint32) ∧
    lookupDataType CustomTypes.empty ⟨"WEIRD", 99, 7, "c"⟩ =
      .error (.unsupported "WEIRD" 99 7 "c") :=
  ⟨lookup_order_first_match.1 sampleCustomById ⟨"FOO", 99, 4, ""⟩ _ (by rfl),
   lookup_order_first_match.2.1 sampleCustomByName ⟨"FOO", 99, 4, ""⟩ _
     (by rfl) (by rfl),
   lookup_order_first_match.2.2.1 CustomTypes.empty ⟨"UDINT", 19, 4, ""⟩ _
     (by rfl) (by rfl) (by rfl),
   lookup_order_first_match.2.2.2 CustomTypes.empty ⟨"WEIRD", 99, 7, "c"⟩
     (by rfl) (by rfl) (by rfl)⟩

/-- C5 (amended): a successfully resolved string symbol always has
`array_length = 1`, and a successfully resolved non-string symbol has
`array_length = reported_size / element_size`, which is at least 1 whenever
the reported byte size is at least the element's byte size; when the reported
size is smaller, the division truncates to `array_length = 0` (see the
counterexample). -/
theorem array_length_pos_of_size_ge :
    (∀ (ct : CustomTypes) (info : SAdsSymbolEntry),
      lookupDataType ct info = .ok .STRING →
      get_symbol_data_type ct info = .ok (.STRING, 1)) ∧
    (∀ (ct : CustomTypes) (info : SAdsSymbolEntry) (t : PlcDataType),
      lookupDataType ct info = .ok t → t ≠ .STRING →
      0 < ctypesSizeof t → ctypesSizeof t ≤ info.size →
      (get_symbol_data_type ct info).map Prod.snd =
        .ok (info.size / ctypesSizeof t) ∧
      1 ≤ info.size / ctypesSizeof t) := by
  constructor
  · intro ct info h
    unfold get_symbol_data_type
    rw [h]
    rfl
  · intro ct info t h hne hpos hle
    have hdiv : 1 ≤ info.size / ctypesSizeof t :=
      (Nat.one_le_div_iff hpos).mpr hle
    refine ⟨?_, hdiv⟩
    have hget : get_symbol_data_type ct info = promoteArray t info.size := by
      unfold get_symbol_data_type
      rw [h]
    rw [hget]
    unfold promoteArray
    rw [if_neg hne, if_neg (by omega)]
    by_cases harr : info.size / ctypesSizeof t > 1
    · rw [if_pos harr]
      rfl
    · rw [if_neg harr]
      rfl

/-- Witness for `array_length_pos_of_size_ge` on concrete entries. -/
theorem array_length_pos_of_size_ge_witness :
    get_symbol_data_type CustomTypes.empty ⟨"STRING(80)", 30, 81, ""⟩ =
      .ok (.STRING, 1) ∧
    (get_symbol_data_type CustomTypes.empty
      ⟨"UDINT", 19, 8, ""⟩).map Prod.snd = .ok 2 ∧
    1 ≤ (8 : Nat) / 4 :=
  ⟨array_length_pos_of_size_ge.1 CustomTypes.empty ⟨"STRING(80)", 30, 81, ""⟩
     (by rfl),
   (array_length_pos_of_size_ge.2 CustomTypes.empty ⟨"UDINT", 19, 8, ""⟩
     (.prim .c_uint32) (by rfl) (by decide) (by decide) (by decide)).1,
   (array_length_pos_of_size_ge.2 CustomTypes.empty ⟨"UDINT", 19, 8, ""⟩
     (.prim .c_uint32) (by rfl) (by decide) (by decide) (by decide)).2⟩

/-- C5 counterexample: resolution succeeds for a `UINT32` symbol whose
reported byte size (2) is smaller than the primitive's byte size (4), and the
resulting `array_length` is `2 / 4 = 0`, not `≥ 1`. -/
theorem array_length_zero_counterexample :
    get_symbol_data_type CustomTypes.empty ⟨"UDINT", 19, 2, ""⟩ =
      .ok (.prim .c_uint32, 0) ∧ ¬(1 ≤ 0) := by
  constructor
  · rfl
  · decide

/-! ## Theorems: symbol lifecycle and device worker -/

/-- C2 evaluation: the initializer enqueued for a symbol activated without a
poll rate does not resolve the symbol's type first — `data_type` is still
`None` from construction, so `ctypes.sizeof(self.data_type)` raises
`TypeError` before `add_device_notification` can run, whatever the device
metadata would say. -/
theorem push_init_sizeof_none :
    ∀ (resolve : String → Except ResolveError (PlcDataType × Nat))
      (name : String),
      Symbol.connectionInit resolve (Symbol.mkState name none) =
        .error .sizeofNone := by
  intro resolve name
  rfl

/-- C3 evaluation: in a poll group holding a raising callback (id 1) followed
by a healthy one (id 2), the cycle invokes callback 1, whose failure handler
calls `info['calls'].remove(func)`; the list holds `(func, args, kwargs)`
tuples, so `remove` raises an uncaught `ValueError` — the raising callback is
not removed, callback 2 never runs, and the poll thread dies instead of
continuing. -/
theorem poll_cycle_remove_valueerror :
    pollCycle [.tuple 1 true, .tuple 2 false] =
      (.error .valueError, [1]) := by
  rfl

/-- C4 evaluation: with the device's only symbol acquired as
`get_symbol("MAIN.x", None)`, `Connection.close` pops the bare name from the
tuple-keyed dict, so `clear_symbol` raises `KeyError`: the symbol stays
registered and the transport stays open. -/
theorem connection_close_keyerror :
    Connection.close (Plc.get_symbol Plc.initState "MAIN.x" none).2
      "MAIN.x" = .error .keyError ∧
    ((Plc.get_symbol Plc.initState "MAIN.x" none).2).symbols =
      [(.pair "MAIN.x" none, 0)] ∧
    ((Plc.get_symbol Plc.initState "MAIN.x" none).2).adsOpen = true := by
  refine ⟨rfl, rfl, rfl⟩

theorem dictGet?_append_self (l : List (PyKey × SymbolId)) (k : PyKey)
    (v : SymbolId) (h : dictGet? l k = none) :
    dictGet? (l ++ [(k, v)]) k = some v := by
  induction l with
  | nil => simp [dictGet?]
  | cons hd tl ih =>
    obtain ⟨k', v'⟩ := hd
    rw [dictGet?] at h
    by_cases hk : k' = k
    · rw [if_pos hk] at h
      exact Option.noConfusion h
    · rw [if_neg hk] at h
      show dictGet? ((k', v') :: (tl ++ [(k, v)])) k = some v
      rw [dictGet?, if_neg hk]
      exact ih h

/-- C9: two `get_symbol` calls with identical `(name, poll_rate)` arguments
on the same device return the same Symbol instance. -/
theorem get_symbol_idempotent :
    ∀ (st : PlcState) (name : String) (rate : Option PollRate),
      (Plc.get_symbol (Plc.get_symbol st name rate).2 name rate).1 =
        (Plc.get_symbol st name rate).1 := by
  intro st name rate
  cases h : dictGet? st.symbols (.pair name rate) with
  | some sym =>
    simp [Plc.get_symbol, h]
  | none =>
    simp [Plc.get_symbol, h,
      dictGet?_append_self st.symbols (.pair name rate) st.nextId h]

/-- C6 counterexample: an address in the `net_id@ip` form is accepted with the
AMS id taken verbatim, here `5.6.7.8.1.2`, which does not end in `.1.1`. -/
theorem ams_id_verbatim_counterexample :
    parse_address "5.6.7.8.1.2@10.0.0.1/MAIN.x" =
      .ok { ip_address := "10.0.0.1", host := "5.6.7.8.1.2@10.0.0.1",
            ams_id := "5.6.7.8.1.2", port := 851, poll_rate := none,
            symbol := "MAIN.x", use_notify := true } ∧
    (".1.1".toList).isSuffixOf "5.6.7.8.1.2".toList = false := by
  constructor
  · rfl
  · decide

end AdsPlugin
